import Mathlib

set_option maxHeartbeats 1000000
set_option maxRecDepth 8000

/-!
Verification development for the flight-sim core (src/flight-sim.js).

The terrain world (heightfield generation, streaming grid, height query,
collision detection and collision resolution) is embedded over `ℚ`, so all
of its operations are executable and concrete runs are decidable.  The
per-tick flight physics (`updatePlaneControls`) uses square roots and
trigonometric functions, so it is embedded over `ℝ`.

`terrain-generation.js` (the functions `generateTerrain`, `extractTop`,
`extractBottom`, `extractLeft`, `extractRight`) is imported by
`flight-sim.js` but its source is not part of the repository snapshot;
those definitions are modelled from the specification and carry a
`Modelled from the spec:` doc comment.
-/

/-- Constant `SQUARE_SIZE` (meters), flight-sim.js line 11. -/
def SQUARE_SIZE : ℚ := 2000

/-- Constant `TERRAIN_DETAIL`, flight-sim.js line 12. -/
def TERRAIN_DETAIL : ℕ := 9

/-- Constant `TERRAIN_ROUGHNESS`, flight-sim.js line 13. -/
def TERRAIN_ROUGHNESS : ℚ := 0.05

/-- A square heightfield: `size` samples per side, `val i j` is the sample in
row `i` (the z direction, matching `heightData[iv][iu]` in
`getTerrainHeightAt`) and column `j` (the x direction). -/
structure HeightGrid where
  size : ℕ
  val : ℕ → ℕ → ℚ

/-- One terrain chunk as stored in `terrainGrid` (flight-sim.js lines
472-477); the mesh is rendering-only and is omitted. -/
structure Chunk where
  gridX : ℤ
  gridZ : ℤ
  heightData : HeightGrid

/-- The streaming grid `terrainGrid`: a map from integer chunk coordinates to
chunks, embedded as a function into `Option Chunk`. -/
def Grid : Type := ℤ × ℤ → Option Chunk

/-- Per-edge boundary constraints passed to `generateTerrain`
(flight-sim.js lines 429-434). -/
structure Constraints where
  top : Option (List ℚ)
  bottom : Option (List ℚ)
  left : Option (List ℚ)
  right : Option (List ℚ)

/-- Modelled from the spec: the recursive midpoint-displacement step of the
missing `terrain-generation.js`.  On the square region with top-left corner
`(i0, j0)` and side `2^(lvl+1)`, the four edge midpoints are set to the
average of their two defining corners and the center to the average of the
four corners, each plus a random offset `roughness * amp * rand i j` keyed
by the absolute sample position; the amplitude halves at every recursion
level, and the step recurses into the four half-size quadrants. -/
def squareStep (rand : ℕ → ℕ → ℚ) (rough : ℚ) :
    ℕ → ℕ → ℕ → ℚ → ℚ → ℚ → ℚ → ℚ → ℕ → ℕ → ℚ
  | 0, _, _, cTL, _, _, _, _, _, _ => cTL
  | lvl+1, i0, j0, cTL, cTR, cBL, cBR, amp, i, j =>
    let h := 2 ^ lvl
    if i = i0 ∧ j = j0 then cTL
    else if i = i0 ∧ j = j0 + 2*h then cTR
    else if i = i0 + 2*h ∧ j = j0 then cBL
    else if i = i0 + 2*h ∧ j = j0 + 2*h then cBR
    else
      let mT := (cTL + cTR)/2 + rough * amp * rand i0 (j0+h)
      let mB := (cBL + cBR)/2 + rough * amp * rand (i0+2*h) (j0+h)
      let mL := (cTL + cBL)/2 + rough * amp * rand (i0+h) j0
      let mR := (cTR + cBR)/2 + rough * amp * rand (i0+h) (j0+2*h)
      let ctr := (cTL + cTR + cBL + cBR)/4 + rough * amp * rand (i0+h) (j0+h)
      if i ≤ i0 + h then
        if j ≤ j0 + h then squareStep rand rough lvl i0 j0 cTL mT mL ctr (amp/2) i j
        else squareStep rand rough lvl i0 (j0+h) mT cTR ctr mR (amp/2) i j
      else
        if j ≤ j0 + h then squareStep rand rough lvl (i0+h) j0 mL ctr cBL mB (amp/2) i j
        else squareStep rand rough lvl (i0+h) (j0+h) ctr mR mB cBR (amp/2) i j

/-- First of two optional seeds, falling back to a random draw. -/
def firstSome (a b : Option ℚ) (d : ℚ) : ℚ :=
  (a.orElse (fun _ => b)).getD d

/-- Modelled from the spec: after the stochastic step, any sample lying
exactly on a constrained boundary is overwritten with the exact constraint
value (top on row `0`, bottom on row `n`, left on column `0`, right on
column `n`). -/
def constrainSample (c : Constraints) (n : ℕ) (raw : ℕ → ℕ → ℚ) (i j : ℕ) : ℚ :=
  let b0 := raw i j
  let b1 := match c.right with
    | some r => if j = n then r.getD i b0 else b0
    | none => b0
  let b2 := match c.left with
    | some l => if j = 0 then l.getD i b1 else b1
    | none => b1
  let b3 := match c.bottom with
    | some bo => if i = n then bo.getD j b2 else b2
    | none => b2
  match c.top with
  | some t => if i = 0 then t.getD j b3 else b3
  | none => b3

/-- Modelled from the spec: `generate(detail, roughness, constraints)` of the
missing `terrain-generation.js`.  Produces a `(2^detail + 1)`-sized square
grid by fractal midpoint displacement; corners for which a constraint array
is supplied are seeded from that array rather than randomly, and after the
stochastic step every sample on a constrained boundary is overwritten with
the exact constraint value.  The unseeded global randomness of the original
is modelled by the explicit random field `rand`. -/
def generateTerrain (rand : ℕ → ℕ → ℚ) (detail : ℕ) (rough : ℚ)
    (c : Constraints) : HeightGrid :=
  let n := 2 ^ detail
  let c00 := firstSome (c.top.bind (fun t => t.get? 0)) (c.left.bind (fun l => l.get? 0)) (rand 0 0)
  let c0n := firstSome (c.top.bind (fun t => t.get? n)) (c.right.bind (fun r => r.get? 0)) (rand 0 n)
  let cn0 := firstSome (c.bottom.bind (fun b => b.get? 0)) (c.left.bind (fun l => l.get? n)) (rand n 0)
  let cnn := firstSome (c.bottom.bind (fun b => b.get? n)) (c.right.bind (fun r => r.get? n)) (rand n n)
  let raw := squareStep rand rough detail 0 0 c00 c0n cn0 cnn 1
  ⟨n + 1, fun i j => constrainSample c n raw i j⟩

/-- Modelled from the spec: `extractTop` returns the boundary row at the
small-z side (row `0`). -/
def extractTop (g : HeightGrid) : List ℚ :=
  (List.range g.size).map (fun j => g.val 0 j)

/-- Modelled from the spec: `extractBottom` returns the boundary row at the
large-z side (row `size - 1`). -/
def extractBottom (g : HeightGrid) : List ℚ :=
  (List.range g.size).map (fun j => g.val (g.size - 1) j)

/-- Modelled from the spec: `extractLeft` returns the boundary column at the
small-x side (column `0`). -/
def extractLeft (g : HeightGrid) : List ℚ :=
  (List.range g.size).map (fun i => g.val i 0)

/-- Modelled from the spec: `extractRight` returns the boundary column at the
large-x side (column `size - 1`). -/
def extractRight (g : HeightGrid) : List ℚ :=
  (List.range g.size).map (fun i => g.val i (g.size - 1))

/-- The constraint record assembled by `createTerrainSquare`
(flight-sim.js lines 423-451): for each axis-adjacent neighbor that already
exists, its facing boundary is extracted as the constraint. -/
def chunkConstraints (g : Grid) (gridX gridZ : ℤ) : Constraints where
  top := (g (gridX, gridZ - 1)).map (fun nb => extractBottom nb.heightData)
  bottom := (g (gridX, gridZ + 1)).map (fun nb => extractTop nb.heightData)
  left := (g (gridX - 1, gridZ)).map (fun nb => extractRight nb.heightData)
  right := (g (gridX + 1, gridZ)).map (fun nb => extractLeft nb.heightData)

/-- Function `createTerrainSquare` (flight-sim.js lines 415-480): skip if the chunk
already exists, otherwise generate height data constrained by the existing
axis-adjacent neighbors and store it under `(gridX, gridZ)`.  Mesh and
material construction are rendering-only and omitted. -/
def createTerrainSquare (rand : ℕ → ℕ → ℚ) (g : Grid) (gridX gridZ : ℤ) : Grid :=
  if (g (gridX, gridZ)).isSome then g
  else
    let heightData := generateTerrain rand TERRAIN_DETAIL TERRAIN_ROUGHNESS
      (chunkConstraints g gridX gridZ)
    fun p => if p = (gridX, gridZ) then some ⟨gridX, gridZ, heightData⟩ else g p

/-- Chunk coordinate owning a world coordinate:
`Math.floor((world + SQUARE_SIZE / 2) / SQUARE_SIZE)`
(flight-sim.js lines 567-568 and 591-592). -/
def chunkCoord (w : ℚ) : ℤ := ⌊(w + SQUARE_SIZE / 2) / SQUARE_SIZE⌋

/-- Local coordinate within the owning square
(`worldX - gridX * SQUARE_SIZE`, flight-sim.js lines 602-603). -/
def localCoord (w : ℚ) : ℚ := w - chunkCoord w * SQUARE_SIZE

/-- Continuous heightData index
(`(localX / SQUARE_SIZE + 0.5) * (size - 1)`, flight-sim.js lines 606-607). -/
def gridIndex (size : ℕ) (w : ℚ) : ℚ :=
  (localCoord w / SQUARE_SIZE + 0.5) * ((size : ℚ) - 1)

/-- Function `getTerrainHeightAt` (flight-sim.js lines 589-629): resolve the owning
chunk (sea level `0` if absent), bilinearly interpolate the four
surrounding samples with the upper indices clamped at `size - 1`, and apply
the vertical scale-and-clamp `min (max (h * 10) 0) 200000`. -/
def getTerrainHeightAt (grid : Grid) (worldX worldZ : ℚ) : ℚ :=
  match grid (chunkCoord worldX, chunkCoord worldZ) with
  | none => 0
  | some terrain =>
    let size := terrain.heightData.size
    let u := gridIndex size worldX
    let v := gridIndex size worldZ
    let iu := ⌊u⌋
    let iv := ⌊v⌋
    let fu := u - iu
    let fv := v - iv
    let iu1 := min (iu + 1) ((size : ℤ) - 1)
    let iv1 := min (iv + 1) ((size : ℤ) - 1)
    let h00 := terrain.heightData.val iv.toNat iu.toNat
    let h10 := terrain.heightData.val iv.toNat iu1.toNat
    let h01 := terrain.heightData.val iv1.toNat iu.toNat
    let h11 := terrain.heightData.val iv1.toNat iu1.toNat
    let hx0 := h00 * (1 - fu) + h10 * fu
    let hx1 := h01 * (1 - fu) + h11 * fu
    let h := hx0 * (1 - fv) + hx1 * fv
    min (max (h * 10) 0) 200000

/-- The axis-aligned bounding box of the plane (`THREE.Box3`); the box is an
input to the collision check since it derives from the loaded 3D model. -/
structure Box where
  minX : ℚ
  minY : ℚ
  minZ : ℚ
  maxX : ℚ
  maxY : ℚ
  maxZ : ℚ

/-- Horizontal expansion of the collision box by 2 meters on each side in x
and z (flight-sim.js lines 641-645). -/
def expandBox (b : Box) : Box :=
  { b with minX := b.minX - 2, minZ := b.minZ - 2, maxX := b.maxX + 2, maxZ := b.maxZ + 2 }

/-- The nine stage-1 probe points of the expanded box: corners, edge
midpoints and center (flight-sim.js lines 647-648, the `xs`/`zs` cross
product). -/
def stage1Points (b : Box) : List (ℚ × ℚ) :=
  ([b.minX, (b.minX + b.maxX) * (1/2), b.maxX]).flatMap
    (fun x => ([b.minZ, (b.minZ + b.maxZ) * (1/2), b.maxZ]).map (fun z => (x, z)))

/-- The maximum terrain height over the nine stage-1 probe points
(flight-sim.js lines 650-656).  The source folds from `-Infinity`; since
`getTerrainHeightAt` is clamped to be nonnegative, folding from `0` yields
the same maximum. -/
def stage1Max (grid : Grid) (b : Box) : ℚ :=
  ((stage1Points b).map (fun p => getTerrainHeightAt grid p.1 p.2)).foldl max 0

/-- The 6×6 stage-2 sample points of the expanded box, in source loop order
(`ix` outer, `iz` inner; flight-sim.js lines 661-670). -/
def stage2Points (b : Box) : List (ℚ × ℚ) :=
  let dx := (b.maxX - b.minX) / 5
  let dz := (b.maxZ - b.minZ) / 5
  (List.range 6).flatMap
    (fun ix => (List.range 6).map (fun iz => (b.minX + dx * ix, b.minZ + dz * iz)))

/-- The stage-2 loop of `checkCollisions` (flight-sim.js lines 667-681):
walk the sample points, returning `true` at the first point whose terrain
height is above the plane bottom or where `ty - planeBottomY <= 0.75`.
Also counts the terrain samples taken, for the no-further-sampling claim. -/
def stage2Loop (grid : Grid) (planeBottomY : ℚ) :
    List (ℚ × ℚ) → ℕ → Bool × ℕ
  | [], acc => (false, acc)
  | p :: rest, acc =>
    let ty := getTerrainHeightAt grid p.1 p.2
    if planeBottomY < ty then (true, acc + 1)
    else if ty - planeBottomY ≤ 3/4 then (true, acc + 1)
    else stage2Loop grid planeBottomY rest (acc + 1)

/-- Function `checkCollisions` (flight-sim.js lines 636-682) instrumented with the
number of terrain samples taken: expand the box, broad-reject when the
stage-1 maximum is at most the box bottom (9 samples), otherwise run the
stage-2 loop. -/
def checkCollisionsAux (grid : Grid) (box : Box) : Bool × ℕ :=
  let b := expandBox box
  if stage1Max grid b ≤ b.minY then (false, 9)
  else stage2Loop grid b.minY (stage2Points b) 9

/-- Function `checkCollisions` (flight-sim.js lines 636-682): the boolean result. -/
def checkCollisions (grid : Grid) (box : Box) : Bool :=
  (checkCollisionsAux grid box).1

/-- Function `removeDistantTerrain` (flight-sim.js lines 689-714): delete every chunk
whose Chebyshev distance (computed from the chunk's stored coordinates)
from the current grid coordinate exceeds `maxDistance = 4`. -/
def removeDistantTerrain (g : Grid) (cx cz : ℤ) : Grid :=
  fun p =>
    match g p with
    | none => none
    | some t => if 4 < max |t.gridX - cx| |t.gridZ - cz| then none else some t

/-- The streaming state: the chunk map plus `currentGridX`/`currentGridZ`. -/
structure TerrainState where
  grid : Grid
  currentGridX : ℤ
  currentGridZ : ℤ

/-- The row-major scan offsets `-2..2` of the generation loop
(flight-sim.js lines 574-578). -/
def genOffsets : List (ℤ × ℤ) :=
  ([-2, -1, 0, 1, 2] : List ℤ).flatMap
    (fun dx => ([-2, -1, 0, 1, 2] : List ℤ).map (fun dz => (dx, dz)))

/-- Function `updateTerrain` (flight-sim.js lines 566-581): recompute the active grid
coordinate from the plane position; when it changed, create every chunk
within Chebyshev distance 2 of the new coordinate and then evict distant
chunks.  Each created coordinate draws its own randomness from `randFam`,
modelling the unseeded global generator. -/
def updateTerrain (randFam : ℤ × ℤ → ℕ → ℕ → ℚ) (st : TerrainState)
    (planePosX planePosZ : ℚ) : TerrainState :=
  let newGridX := chunkCoord planePosX
  let newGridZ := chunkCoord planePosZ
  if newGridX = st.currentGridX ∧ newGridZ = st.currentGridZ then st
  else
    let coords := genOffsets.map (fun d => (newGridX + d.1, newGridZ + d.2))
    let g1 := coords.foldl (fun g p => createTerrainSquare (randFam p) g p.1 p.2) st.grid
    ⟨removeDistantTerrain g1 newGridX newGridZ, newGridX, newGridZ⟩

/-- Chebyshev distance between chunk coordinates. -/
def cheb (p q : ℤ × ℤ) : ℤ := max |p.1 - q.1| |p.2 - q.2|

/-- The per-tick vehicle state mutated by the physics update and the
collision resolution (flight-sim.js lines 30-49), generic in the scalar
type: the physics integrator uses `ℝ`, the collision world uses `ℚ`. -/
structure PlaneState (α : Type) where
  planePosX : α
  planePosZ : α
  planeAltitude : α
  thrust : α
  planeRotationX : α
  planeRotationY : α
  planeRotationZ : α
  velocityX : α
  velocityY : α
  velocityZ : α
  angularVelocityX : α
  angularVelocityY : α
  angularVelocityZ : α
  planeSpeed : α

/-- The collision-resolution write-back of `animate` (flight-sim.js lines
867-877): when `checkCollisions` reports a collision, zero thrust, the
velocity components and `planeSpeed`, and raise the altitude to at least
the terrain height queried at the vehicle's center position. -/
def resolveCollision (grid : Grid) (box : Box) (s : PlaneState ℚ) : PlaneState ℚ :=
  if checkCollisions grid box then
    let groundY := getTerrainHeightAt grid s.planePosX s.planePosZ
    { s with
      thrust := 0
      velocityX := 0
      velocityY := 0
      velocityZ := 0
      planeSpeed := 0
      planeAltitude := max s.planeAltitude groundY }
  else s

/-- Constant `MAX_SPEED` (m/s), flight-sim.js line 8. -/
def MAX_SPEED : ℝ := 55

/-- Constant `MAX_ALTITUDE` (meters), flight-sim.js line 9. -/
def MAX_ALTITUDE : ℝ := 4200

/-- Constant `GRAVITY` (m/s²), flight-sim.js line 10. -/
def GRAVITY : ℝ := 9.81

/-- The boolean control-key state sampled once per tick
(flight-sim.js lines 56-66). -/
structure Keys where
  w : Bool
  s : Bool
  a : Bool
  d : Bool
  q : Bool
  e : Bool
  shift : Bool
  ctrl : Bool
  space : Bool

/-- The thrust update of `updatePlaneControls` (flight-sim.js lines
743-751): shift raises thrust toward 1 at rate 1/s, ctrl lowers it toward 0
at rate 1/s, space lowers it at rate 3/s, applied in that order. -/
noncomputable def thrustAfter (k : Keys) (dt t : ℝ) : ℝ :=
  let t1 := if k.shift then min 1 (t + dt) else t
  let t2 := if k.ctrl then max 0 (t1 - dt) else t1
  if k.space then max 0 (t2 - dt * 3) else t2

/-- The angular-velocity update of `updatePlaneControls` (flight-sim.js
lines 720-741 and 753-756): each active rotational key adds `2 * dt` on its
axis, then every component is damped by `max 0 (1 - 3 * dt)`. -/
noncomputable def angularAfter (k : Keys) (dt : ℝ) (s : PlaneState ℝ) : ℝ × ℝ × ℝ :=
  let angularAccel := 2 * dt
  let avX0 := if k.w then s.angularVelocityX - angularAccel else s.angularVelocityX
  let avX1 := if k.s then avX0 + angularAccel else avX0
  let avZ0 := if k.a then s.angularVelocityZ - angularAccel else s.angularVelocityZ
  let avZ1 := if k.d then avZ0 + angularAccel else avZ0
  let avY0 := if k.q then s.angularVelocityY - angularAccel else s.angularVelocityY
  let avY1 := if k.e then avY0 + angularAccel else avY0
  let dampeningFactor := max 0 (1 - 3 * dt)
  (avX1 * dampeningFactor, avY1 * dampeningFactor, avZ1 * dampeningFactor)

/-- The forward unit vector `(0, 0, 1)` rotated by the plane's Euler angles
in `XYZ` order (`forward.applyEuler(rotation)`, flight-sim.js lines
758-760); with `THREE`'s `XYZ` convention, the result is
`(sin y, -sin x * cos y, cos x * cos y)`. -/
noncomputable def forwardVector (rotX rotY : ℝ) : ℝ × ℝ × ℝ :=
  (Real.sin rotY, -(Real.sin rotX) * Real.cos rotY, Real.cos rotX * Real.cos rotY)

/-- The integrated, drag-damped velocity of `updatePlaneControls` before the
speed cap (flight-sim.js lines 758-777): thrust acceleration along the
forward vector, gravity, simplified lift proportional to horizontal speed,
semi-implicit Euler integration over `dt`, then the `0.99` drag factor. -/
noncomputable def preCapVelocity (k : Keys) (dt : ℝ) (s : PlaneState ℝ) : ℝ × ℝ × ℝ :=
  let t := thrustAfter k dt s.thrust
  let f := forwardVector s.planeRotationX s.planeRotationY
  let accelX := f.1 * t * 100
  let accelZ := f.2.2 * t * 100
  let xzSpeed := Real.sqrt (s.velocityX * s.velocityX + s.velocityZ * s.velocityZ)
  let accelY := f.2.1 * t * 100 - GRAVITY + xzSpeed * 0.003
  ((s.velocityX + accelX * dt) * 0.99,
   (s.velocityY + accelY * dt) * 0.99,
   (s.velocityZ + accelZ * dt) * 0.99)

/-- Velocity magnitude `sqrt(vx² + vy² + vz²)` (flight-sim.js line 779). -/
noncomputable def speed3 (v : ℝ × ℝ × ℝ) : ℝ :=
  Real.sqrt (v.1 * v.1 + v.2.1 * v.2.1 + v.2.2 * v.2.2)

/-- The speed cap of `updatePlaneControls` (flight-sim.js lines 779-785):
when the magnitude exceeds `MAX_SPEED`, every component is scaled by
`MAX_SPEED / currentSpeed`. -/
noncomputable def capVelocity (v : ℝ × ℝ × ℝ) : ℝ × ℝ × ℝ :=
  let currentSpeed := speed3 v
  if MAX_SPEED < currentSpeed then
    let scale := MAX_SPEED / currentSpeed
    (v.1 * scale, v.2.1 * scale, v.2.2 * scale)
  else v

/-- Function `updatePlaneControls` (flight-sim.js lines 719-798): angular-velocity
and thrust updates, forward/gravity/lift acceleration, velocity integration
with drag and the speed cap, position/altitude integration with the
altitude clamp to `[0, MAX_ALTITUDE]`, Euler-angle integration, and
`planeSpeed := currentSpeed` (the pre-cap magnitude, line 797). -/
noncomputable def updatePlaneControls (k : Keys) (dt : ℝ) (s : PlaneState ℝ) :
    PlaneState ℝ :=
  let av := angularAfter k dt s
  let t := thrustAfter k dt s.thrust
  let pre := preCapVelocity k dt s
  let v := capVelocity pre
  { planePosX := s.planePosX + v.1 * dt
    planePosZ := s.planePosZ + v.2.2 * dt
    planeAltitude := min MAX_ALTITUDE (max 0 (s.planeAltitude + v.2.1 * dt))
    thrust := t
    planeRotationX := s.planeRotationX + av.1 * dt
    planeRotationY := s.planeRotationY + av.2.1 * dt
    planeRotationZ := s.planeRotationZ + av.2.2 * dt
    velocityX := v.1
    velocityY := v.2.1
    velocityZ := v.2.2
    angularVelocityX := av.1
    angularVelocityY := av.2.1
    angularVelocityZ := av.2.2
    planeSpeed := speed3 pre }

/-- The spawn/reset vehicle state of `resetPlane` (flight-sim.js lines
884-904), generic in the scalar type. -/
def resetState (α : Type) [LinearOrderedField α] : PlaneState α where
  planePosX := 0
  planePosZ := 0
  planeAltitude := 200
  thrust := 1/2
  planeRotationX := 0
  planeRotationY := 0
  planeRotationZ := 0
  velocityX := -20
  velocityY := 0
  velocityZ := 0
  angularVelocityX := 0
  angularVelocityY := 0
  angularVelocityZ := 0
  planeSpeed := 20

/-! ### Helper lemmas about the height query -/

/-- The height query is clamped below by `0`. -/
lemma getTerrainHeightAt_nonneg (grid : Grid) (x z : ℚ) :
    0 ≤ getTerrainHeightAt grid x z := by
  unfold getTerrainHeightAt
  split
  · norm_num
  · dsimp only
    exact le_min (le_max_right _ _) (by norm_num)

/-- The height query is clamped above by `200000`. -/
lemma getTerrainHeightAt_le (grid : Grid) (x z : ℚ) :
    getTerrainHeightAt grid x z ≤ 200000 := by
  unfold getTerrainHeightAt
  split
  · norm_num
  · dsimp only
    exact min_le_right _ _

/-- The local coordinate lies in `[-SQUARE_SIZE/2, SQUARE_SIZE/2)`. -/
lemma localCoord_lb (w : ℚ) : -1000 ≤ localCoord w := by
  have h := Int.floor_le ((w + SQUARE_SIZE / 2) / SQUARE_SIZE)
  simp only [localCoord, chunkCoord, SQUARE_SIZE] at *
  linarith

/-- The local coordinate lies in `[-SQUARE_SIZE/2, SQUARE_SIZE/2)`. -/
lemma localCoord_ub (w : ℚ) : localCoord w < 1000 := by
  have h := Int.lt_floor_add_one ((w + SQUARE_SIZE / 2) / SQUARE_SIZE)
  simp only [localCoord, chunkCoord, SQUARE_SIZE] at *
  linarith

/-- The continuous grid index is nonnegative. -/
lemma gridIndex_nonneg (size : ℕ) (w : ℚ) (hs : 2 ≤ size) : 0 ≤ gridIndex size w := by
  have h1 := localCoord_lb w
  have hsq : (1 : ℚ) ≤ (size : ℚ) - 1 := by
    have : (2 : ℚ) ≤ (size : ℚ) := by exact_mod_cast hs
    linarith
  unfold gridIndex
  simp only [SQUARE_SIZE]
  apply mul_nonneg
  · linarith
  · linarith

/-- The continuous grid index is strictly below `size - 1`. -/
lemma gridIndex_lt (size : ℕ) (w : ℚ) (hs : 2 ≤ size) :
    gridIndex size w < (size : ℚ) - 1 := by
  have h1 := localCoord_ub w
  have hsq : (1 : ℚ) ≤ (size : ℚ) - 1 := by
    have : (2 : ℚ) ≤ (size : ℚ) := by exact_mod_cast hs
    linarith
  unfold gridIndex
  simp only [SQUARE_SIZE]
  have hfac : localCoord w / 2000 + 0.5 < 1 := by
    norm_num
    linarith
  calc (localCoord w / 2000 + 0.5) * ((size : ℚ) - 1)
      < 1 * ((size : ℚ) - 1) := by
        apply mul_lt_mul_of_pos_right hfac
        linarith
    _ = (size : ℚ) - 1 := one_mul _

/-- The floor of the grid index is in `[0, size - 2]`. -/
lemma floor_gridIndex_bounds (size : ℕ) (w : ℚ) (hs : 2 ≤ size) :
    0 ≤ ⌊gridIndex size w⌋ ∧ ⌊gridIndex size w⌋ ≤ (size : ℤ) - 2 := by
  constructor
  · exact Int.floor_nonneg.mpr (gridIndex_nonneg size w hs)
  · have h := gridIndex_lt size w hs
    have : ⌊gridIndex size w⌋ < (size : ℤ) - 1 := by
      apply Int.floor_lt.mpr
      push_cast
      exact h
    omega

/-! ### Concrete fixtures used by witnesses and counterexamples -/

/-- The empty streaming grid. -/
def emptyGrid : Grid := fun _ => none

/-- A random field that is identically zero. -/
def randZero : ℕ → ℕ → ℚ := fun _ _ => 0

/-- A chunk at `(0,0)` whose height data is constant `h` with the size
`2 ^ TERRAIN_DETAIL + 1 = 513` every generated chunk has. -/
def flatChunk (h : ℚ) : Chunk := ⟨0, 0, ⟨513, fun _ _ => h⟩⟩

/-- A grid holding only the flat chunk at `(0,0)`. -/
def gridFlat (h : ℚ) : Grid :=
  fun p => if p = ((0 : ℤ), (0 : ℤ)) then some (flatChunk h) else none

/-- A small bounding box around the origin with bottom at `y = 5`. -/
def boxW : Box := ⟨-10, 5, -10, 10, 15, 10⟩

/-- A height query against an absent chunk resolves to sea level. -/
lemma heightAt_none (grid : Grid) (x z : ℚ)
    (h : grid (chunkCoord x, chunkCoord z) = none) :
    getTerrainHeightAt grid x z = 0 := by
  unfold getTerrainHeightAt
  rw [h]

/-- The empty grid queries to `0` everywhere. -/
lemma heightAt_empty (x z : ℚ) : getTerrainHeightAt emptyGrid x z = 0 :=
  heightAt_none emptyGrid x z rfl

/-- World coordinates in `[-1000, 1000)` belong to chunk coordinate `0`. -/
lemma chunkCoord_eq_zero (w : ℚ) (h1 : -1000 ≤ w) (h2 : w < 1000) :
    chunkCoord w = 0 := by
  unfold chunkCoord SQUARE_SIZE
  rw [Int.floor_eq_zero_iff, Set.mem_Ico]
  constructor
  · exact div_nonneg (by linarith) (by norm_num)
  · rw [div_lt_one (by norm_num)]
    linarith

/-- Flat-chunk query inside chunk `(0,0)`: constant data interpolates to the
constant, then the vertical scale-and-clamp applies. -/
lemma heightAt_flat (h x z : ℚ) (hx1 : -1000 ≤ x) (hx2 : x < 1000)
    (hz1 : -1000 ≤ z) (hz2 : z < 1000) :
    getTerrainHeightAt (gridFlat h) x z = min (max (h * 10) 0) 200000 := by
  unfold getTerrainHeightAt
  rw [chunkCoord_eq_zero x hx1 hx2, chunkCoord_eq_zero z hz1 hz2]
  rw [show gridFlat h ((0 : ℤ), (0 : ℤ)) = some (flatChunk h) from by simp [gridFlat]]
  dsimp only [flatChunk]
  congr 1
  congr 1
  ring

/-- Flat-chunk query outside chunk `(0,0)` resolves to sea level. -/
lemma heightAt_flat_ne (h x z : ℚ)
    (hne : ¬(chunkCoord x = 0 ∧ chunkCoord z = 0)) :
    getTerrainHeightAt (gridFlat h) x z = 0 := by
  apply heightAt_none
  simp only [gridFlat]
  rw [if_neg]
  intro hc
  exact hne ⟨congrArg Prod.fst hc, congrArg Prod.snd hc⟩

/-- C9: for any world coordinate whose owning chunk coordinate has no
resident chunk in the grid, `getTerrainHeightAt` returns exactly `0`
(sea level) rather than failing. -/
theorem C9_sea_level (grid : Grid) (worldX worldZ : ℚ)
    (h : grid (chunkCoord worldX, chunkCoord worldZ) = none) :
    getTerrainHeightAt grid worldX worldZ = 0 := by
  unfold getTerrainHeightAt
  rw [h]

/-- Witness for C9 at the empty grid and the origin. -/
theorem C9_sea_level_witness :
    emptyGrid (chunkCoord 0, chunkCoord 0) = none ∧
    getTerrainHeightAt emptyGrid 0 0 = 0 :=
  ⟨rfl, C9_sea_level emptyGrid 0 0 rfl⟩

/-- C10: `getTerrainHeightAt` is total and safe: its value always lies in
`[0, 200000]`, and whenever the owning chunk is resident (with the uniform
size hypothesis `2 ≤ size`), the bilinear lookup indices `iu`, `iv` lie in
`[0, size - 2]` and the clamped indices `iu1`, `iv1` in `[0, size - 1]`. -/
theorem C10_height_query_safe (grid : Grid) (worldX worldZ : ℚ)
    (hs : ∀ p c, grid p = some c → 2 ≤ c.heightData.size) :
    (0 ≤ getTerrainHeightAt grid worldX worldZ ∧
      getTerrainHeightAt grid worldX worldZ ≤ 200000) ∧
    ∀ t, grid (chunkCoord worldX, chunkCoord worldZ) = some t →
      (0 ≤ ⌊gridIndex t.heightData.size worldX⌋ ∧
        ⌊gridIndex t.heightData.size worldX⌋ ≤ (t.heightData.size : ℤ) - 2 ∧
        0 ≤ min (⌊gridIndex t.heightData.size worldX⌋ + 1) ((t.heightData.size : ℤ) - 1) ∧
        min (⌊gridIndex t.heightData.size worldX⌋ + 1) ((t.heightData.size : ℤ) - 1)
          ≤ (t.heightData.size : ℤ) - 1) ∧
      (0 ≤ ⌊gridIndex t.heightData.size worldZ⌋ ∧
        ⌊gridIndex t.heightData.size worldZ⌋ ≤ (t.heightData.size : ℤ) - 2 ∧
        0 ≤ min (⌊gridIndex t.heightData.size worldZ⌋ + 1) ((t.heightData.size : ℤ) - 1) ∧
        min (⌊gridIndex t.heightData.size worldZ⌋ + 1) ((t.heightData.size : ℤ) - 1)
          ≤ (t.heightData.size : ℤ) - 1) := by
  constructor
  · exact ⟨getTerrainHeightAt_nonneg grid worldX worldZ, getTerrainHeightAt_le grid worldX worldZ⟩
  · intro t ht
    have h2 : 2 ≤ t.heightData.size := hs _ t ht
    have hx := floor_gridIndex_bounds t.heightData.size worldX h2
    have hz := floor_gridIndex_bounds t.heightData.size worldZ h2
    refine ⟨⟨hx.1, hx.2, ?_, min_le_right _ _⟩, ⟨hz.1, hz.2, ?_, min_le_right _ _⟩⟩
    · exact le_min (by omega) (by omega)
    · exact le_min (by omega) (by omega)

/-- Witness for C10 at a one-chunk grid and the origin. -/
theorem C10_height_query_witness :
    (0 ≤ getTerrainHeightAt (gridFlat 100) 0 0 ∧
      getTerrainHeightAt (gridFlat 100) 0 0 ≤ 200000) ∧
    ∀ t, gridFlat 100 (chunkCoord 0, chunkCoord 0) = some t →
      (0 ≤ ⌊gridIndex t.heightData.size 0⌋ ∧
        ⌊gridIndex t.heightData.size 0⌋ ≤ (t.heightData.size : ℤ) - 2 ∧
        0 ≤ min (⌊gridIndex t.heightData.size 0⌋ + 1) ((t.heightData.size : ℤ) - 1) ∧
        min (⌊gridIndex t.heightData.size 0⌋ + 1) ((t.heightData.size : ℤ) - 1)
          ≤ (t.heightData.size : ℤ) - 1) ∧
      (0 ≤ ⌊gridIndex t.heightData.size 0⌋ ∧
        ⌊gridIndex t.heightData.size 0⌋ ≤ (t.heightData.size : ℤ) - 2 ∧
        0 ≤ min (⌊gridIndex t.heightData.size 0⌋ + 1) ((t.heightData.size : ℤ) - 1) ∧
        min (⌊gridIndex t.heightData.size 0⌋ + 1) ((t.heightData.size : ℤ) - 1)
          ≤ (t.heightData.size : ℤ) - 1) :=
  C10_height_query_safe (gridFlat 100) 0 0
    (by
      intro p c h
      unfold gridFlat at h
      split at h
      · injection h with h'
        rw [← h']
        norm_num [flatChunk]
      · exact Option.noConfusion h)

/-- C5: when the maximum of the nine stage-1 samples (corners, edge
midpoints, center of the expanded footprint) is below the vehicle's lowest
point, `checkCollisions` returns `false` having taken exactly the 9 stage-1
terrain samples and no more. -/
theorem C5_broad_reject (grid : Grid) (box : Box)
    (h : stage1Max grid (expandBox box) < box.minY) :
    checkCollisionsAux grid box = (false, 9) ∧ checkCollisions grid box = false := by
  have haux : checkCollisionsAux grid box = (false, 9) := by
    unfold checkCollisionsAux
    dsimp only
    rw [if_pos (show stage1Max grid (expandBox box) ≤ (expandBox box).minY from le_of_lt h)]
  refine ⟨haux, ?_⟩
  unfold checkCollisions
  rw [haux]

/-- Witness for C5: the empty grid queries to `0` everywhere, below a box
bottom of `5`. -/
theorem C5_broad_reject_witness :
    stage1Max emptyGrid (expandBox boxW) < boxW.minY ∧
    (checkCollisionsAux emptyGrid boxW = (false, 9) ∧
      checkCollisions emptyGrid boxW = false) :=
  ⟨by norm_num [stage1Max, stage1Points, expandBox, boxW, heightAt_empty,
      List.foldl_cons, List.foldl_nil],
    C5_broad_reject emptyGrid boxW
      (by norm_num [stage1Max, stage1Points, expandBox, boxW, heightAt_empty,
        List.foldl_cons, List.foldl_nil])⟩

/-- A flat resident chunk of raw height `100` (world height `1000`) under
`boxW` makes `checkCollisions` fire at the very first stage-2 sample. -/
lemma checkCollisions_flat100 : checkCollisions (gridFlat 100) boxW = true := by
  have hq : ∀ x z : ℚ, -1000 ≤ x → x < 1000 → -1000 ≤ z → z < 1000 →
      getTerrainHeightAt (gridFlat 100) x z = 1000 := by
    intro x z h1 h2 h3 h4
    rw [heightAt_flat 100 x z h1 h2 h3 h4]
    norm_num
  norm_num [checkCollisions, checkCollisionsAux, stage1Max, stage1Points,
    stage2Points, stage2Loop, expandBox, boxW, hq,
    List.foldl_cons, List.foldl_nil, show List.range 6 = [0, 1, 2, 3, 4, 5] from rfl]

/-- A flat resident chunk of raw height `500` (world height `5000`) under
`boxW` also makes `checkCollisions` fire. -/
lemma checkCollisions_flat500 : checkCollisions (gridFlat 500) boxW = true := by
  have hq : ∀ x z : ℚ, -1000 ≤ x → x < 1000 → -1000 ≤ z → z < 1000 →
      getTerrainHeightAt (gridFlat 500) x z = 5000 := by
    intro x z h1 h2 h3 h4
    rw [heightAt_flat 500 x z h1 h2 h3 h4]
    norm_num
  norm_num [checkCollisions, checkCollisionsAux, stage1Max, stage1Points,
    stage2Points, stage2Loop, expandBox, boxW, hq,
    List.foldl_cons, List.foldl_nil, show List.range 6 = [0, 1, 2, 3, 4, 5] from rfl]

/-- C6: whenever `checkCollisions` reports a collision, the resolution step
zeroes the velocity components, `planeSpeed` and `thrust`, and sets the
altitude to at least the terrain height at the vehicle's center — raised to
that height when below it, otherwise unchanged. -/
theorem C6_grounding (grid : Grid) (box : Box) (s : PlaneState ℚ)
    (h : checkCollisions grid box = true) :
    (resolveCollision grid box s).velocityX = 0 ∧
    (resolveCollision grid box s).velocityY = 0 ∧
    (resolveCollision grid box s).velocityZ = 0 ∧
    (resolveCollision grid box s).planeSpeed = 0 ∧
    (resolveCollision grid box s).thrust = 0 ∧
    getTerrainHeightAt grid s.planePosX s.planePosZ
      ≤ (resolveCollision grid box s).planeAltitude ∧
    (getTerrainHeightAt grid s.planePosX s.planePosZ ≤ s.planeAltitude →
      (resolveCollision grid box s).planeAltitude = s.planeAltitude) ∧
    (s.planeAltitude < getTerrainHeightAt grid s.planePosX s.planePosZ →
      (resolveCollision grid box s).planeAltitude
        = getTerrainHeightAt grid s.planePosX s.planePosZ) := by
  unfold resolveCollision
  rw [if_pos h]
  dsimp only
  exact ⟨rfl, rfl, rfl, rfl, rfl, le_max_right _ _,
    fun h' => max_eq_left h', fun h' => max_eq_right (le_of_lt h')⟩

/-- Witness for C6: a flat resident chunk of height `1000` under a box with
bottom `5` collides, and resolution grounds the reset state. -/
theorem C6_grounding_witness :
    checkCollisions (gridFlat 100) boxW = true ∧
    ((resolveCollision (gridFlat 100) boxW (resetState ℚ)).velocityX = 0 ∧
      (resolveCollision (gridFlat 100) boxW (resetState ℚ)).velocityY = 0 ∧
      (resolveCollision (gridFlat 100) boxW (resetState ℚ)).velocityZ = 0 ∧
      (resolveCollision (gridFlat 100) boxW (resetState ℚ)).planeSpeed = 0 ∧
      (resolveCollision (gridFlat 100) boxW (resetState ℚ)).thrust = 0 ∧
      getTerrainHeightAt (gridFlat 100) (resetState ℚ).planePosX (resetState ℚ).planePosZ
        ≤ (resolveCollision (gridFlat 100) boxW (resetState ℚ)).planeAltitude ∧
      (getTerrainHeightAt (gridFlat 100) (resetState ℚ).planePosX (resetState ℚ).planePosZ
          ≤ (resetState ℚ).planeAltitude →
        (resolveCollision (gridFlat 100) boxW (resetState ℚ)).planeAltitude
          = (resetState ℚ).planeAltitude) ∧
      ((resetState ℚ).planeAltitude
          < getTerrainHeightAt (gridFlat 100) (resetState ℚ).planePosX (resetState ℚ).planePosZ →
        (resolveCollision (gridFlat 100) boxW (resetState ℚ)).planeAltitude
          = getTerrainHeightAt (gridFlat 100) (resetState ℚ).planePosX (resetState ℚ).planePosZ)) :=
  ⟨checkCollisions_flat100, C6_grounding (gridFlat 100) boxW (resetState ℚ) checkCollisions_flat100⟩

/-- The vehicle state used in the C7 counterexample: the reset state flying
at the altitude ceiling. -/
def sC7 : PlaneState ℚ := { resetState ℚ with planeAltitude := 4200 }

/-- Counterexample for C7: with a resident flat chunk of height `5000`
(terrain heights are clamped only at `200000`, far above `MAX_ALTITUDE`),
a tick whose collision resolution fires pushes `planeAltitude` to `5000`,
strictly above `MAX_ALTITUDE = 4200`, even though it was within
`[0, 4200]` after the physics step. -/
theorem C7_counterexample :
    checkCollisions (gridFlat 500) boxW = true ∧
    (0 : ℚ) ≤ sC7.planeAltitude ∧ sC7.planeAltitude ≤ 4200 ∧
    4200 < (resolveCollision (gridFlat 500) boxW sC7).planeAltitude := by
  refine ⟨checkCollisions_flat500, by norm_num [sC7, resetState],
    by norm_num [sC7, resetState], ?_⟩
  unfold resolveCollision
  rw [if_pos checkCollisions_flat500]
  dsimp only
  rw [show sC7.planePosX = (0 : ℚ) from rfl, show sC7.planePosZ = (0 : ℚ) from rfl]
  rw [heightAt_flat 500 0 0 (by norm_num) (by norm_num) (by norm_num) (by norm_num)]
  norm_num [sC7, resetState]

/-- World coordinates outside `[-1000, 1000)` do not belong to chunk
coordinate `0`. -/
lemma chunkCoord_ne_zero (w : ℚ) (h : w < -1000 ∨ 1000 ≤ w) :
    chunkCoord w ≠ 0 := by
  unfold chunkCoord SQUARE_SIZE
  rw [Ne, Int.floor_eq_zero_iff, Set.mem_Ico]
  rintro ⟨h1, h2⟩
  rcases h with h | h
  · rw [le_div_iff₀ (by norm_num : (0 : ℚ) < 2000)] at h1
    linarith
  · rw [div_lt_one (by norm_num : (0 : ℚ) < 2000)] at h2
    linarith

/-- The C4 bounding box: expanded it spans `[-10000, 10000]` in x and z, so
its 6×6 stage-2 sample coordinates `{±10000, ±6000, ±2000}` all fall in
chunks other than `(0,0)`, while the stage-1 center sample `(0,0)` hits the
resident chunk. -/
def boxC4 : Box := ⟨-9998, 100, -9998, 9998, 110, 9998⟩

/-- C4 (code bug evaluation): with a resident flat chunk of world height
`10000` under the box center and sea level (absent chunks) at all 36
stage-2 sample points, every stage-2 sample is more than the `0.75`
clearance below the vehicle's lowest point (`100`), yet `checkCollisions`
returns `true`: the stage-2 clearance test `ty - planeBottomY <= 0.75`
(flight-sim.js line 676) has the subtraction reversed, so it holds at every
sample not already above the bottom. -/
theorem C4_fine_stage_code_eval :
    checkCollisions (gridFlat 1000) boxC4 = true ∧
    ∀ p ∈ stage2Points (expandBox boxC4),
      getTerrainHeightAt (gridFlat 1000) p.1 p.2 + 3/4 < (expandBox boxC4).minY := by
  have hq0 : ∀ x z : ℚ, (x < -1000 ∨ 1000 ≤ x) ∨ (z < -1000 ∨ 1000 ≤ z) →
      getTerrainHeightAt (gridFlat 1000) x z = 0 := by
    intro x z h
    refine heightAt_flat_ne 1000 x z ?_
    rintro ⟨h1, h2⟩
    rcases h with h | h
    · exact chunkCoord_ne_zero x h h1
    · exact chunkCoord_ne_zero z h h2
  have hq1 : getTerrainHeightAt (gridFlat 1000) 0 0 = 10000 := by
    rw [heightAt_flat 1000 0 0 (by norm_num) (by norm_num) (by norm_num) (by norm_num)]
    norm_num
  constructor
  · norm_num [checkCollisions, checkCollisionsAux, stage1Max, stage1Points,
      stage2Points, stage2Loop, expandBox, boxC4, hq0, hq1,
      List.foldl_cons, List.foldl_nil, show List.range 6 = [0, 1, 2, 3, 4, 5] from rfl]
  · intro p hp
    simp only [stage2Points, List.mem_flatMap, List.mem_map] at hp
    obtain ⟨ix, hix, iz, hiz, rfl⟩ := hp
    have hx : ((expandBox boxC4).minX
          + ((expandBox boxC4).maxX - (expandBox boxC4).minX) / 5 * (ix : ℚ) < -1000)
        ∨ (1000 ≤ (expandBox boxC4).minX
          + ((expandBox boxC4).maxX - (expandBox boxC4).minX) / 5 * (ix : ℚ)) := by
      rw [List.mem_range] at hix
      interval_cases ix <;> norm_num [expandBox, boxC4]
    rw [hq0 _ _ (Or.inl hx)]
    norm_num [expandBox, boxC4]

/-- Element access into an extracted boundary list. -/
lemma range_map_getD (n i : ℕ) (h : i < n) (f : ℕ → ℚ) (d : ℚ) :
    ((List.range n).map f).getD i d = f i := by
  simp [List.getD_eq_getElem?_getD, List.getElem?_map, List.getElem?_range, h]

/-- With a top constraint extracted from `A`, every sample of row `0` is
overwritten from `A`'s bottom row — whatever other constraints exist, since
the top overwrite is applied last. -/
lemma constrainSample_top_val (c : Constraints) (A : HeightGrid)
    (hc : c.top = some (extractBottom A)) (hA : A.size = 513)
    (n : ℕ) (raw : ℕ → ℕ → ℚ) (j : ℕ) (hj : j ≤ 512) :
    constrainSample c n raw 0 j = A.val 512 j := by
  have hjs : j < A.size := by omega
  have hjs2 : j < 513 := by omega
  unfold constrainSample
  rw [hc]
  simp [extractBottom, List.getD_eq_getElem?_getD, List.getElem?_map,
    List.getElem?_range, hjs, hjs2, hA]

/-- With a bottom constraint extracted from `A`, every sample of row `512`
is overwritten from `A`'s top row — whatever other constraints exist, since
only the top overwrite (which never touches row `512`) comes later. -/
lemma constrainSample_bottom_val (c : Constraints) (A : HeightGrid)
    (hc : c.bottom = some (extractTop A)) (hA : A.size = 513)
    (raw : ℕ → ℕ → ℚ) (j : ℕ) (hj : j ≤ 512) :
    constrainSample c 512 raw 512 j = A.val 0 j := by
  have hjs : j < A.size := by omega
  have hjs2 : j < 513 := by omega
  unfold constrainSample
  rw [hc]
  rcases hct : c.top with _ | t <;>
    simp [extractTop, List.getD_eq_getElem?_getD, List.getElem?_map,
      List.getElem?_range, hjs, hjs2, hA]

/-- With a left constraint extracted from `A`, every interior sample of
column `0` is overwritten from `A`'s right column — whatever other
constraints exist, since top/bottom overwrites only touch rows `0`/`512`. -/
lemma constrainSample_left_val (c : Constraints) (A : HeightGrid)
    (hc : c.left = some (extractRight A)) (hA : A.size = 513)
    (raw : ℕ → ℕ → ℚ) (i : ℕ) (h1 : 1 ≤ i) (h2 : i ≤ 511) :
    constrainSample c 512 raw i 0 = A.val i 512 := by
  have his : i < A.size := by omega
  have his2 : i < 513 := by omega
  have hi0 : i ≠ 0 := by omega
  have hi512 : i ≠ 512 := by omega
  unfold constrainSample
  rw [hc]
  rcases hct : c.top with _ | t <;> rcases hcb : c.bottom with _ | bo <;>
    simp [hi0, hi512, extractRight, List.getD_eq_getElem?_getD, List.getElem?_map,
      List.getElem?_range, his, his2, hA]

/-- Corner `(0,0)` of a left-constrained grid follows the left constraint
when no top constraint exists. -/
lemma constrainSample_left_val_top (c : Constraints) (A : HeightGrid)
    (hc : c.left = some (extractRight A)) (hct : c.top = none)
    (hA : A.size = 513) (raw : ℕ → ℕ → ℚ) :
    constrainSample c 512 raw 0 0 = A.val 0 512 := by
  unfold constrainSample
  rw [hc, hct]
  rcases hcb : c.bottom with _ | bo <;>
    simp [extractRight, List.getD_eq_getElem?_getD, List.getElem?_map,
      List.getElem?_range, show (0 : ℕ) < A.size from by omega,
      show (0 : ℕ) < 513 from by omega, hA]

/-- Corner `(512,0)` of a left-constrained grid follows the left constraint
when no bottom constraint exists. -/
lemma constrainSample_left_val_bottom (c : Constraints) (A : HeightGrid)
    (hc : c.left = some (extractRight A)) (hcb : c.bottom = none)
    (hA : A.size = 513) (raw : ℕ → ℕ → ℚ) :
    constrainSample c 512 raw 512 0 = A.val 512 512 := by
  unfold constrainSample
  rw [hc, hcb]
  rcases hct : c.top with _ | t <;>
    simp [extractRight, List.getD_eq_getElem?_getD, List.getElem?_map,
      List.getElem?_range, show (512 : ℕ) < A.size from by omega,
      show (512 : ℕ) < 513 from by omega, hA]

/-- With a right constraint extracted from `A`, every interior sample of
column `512` is overwritten from `A`'s left column — whatever other
constraints exist. -/
lemma constrainSample_right_val (c : Constraints) (A : HeightGrid)
    (hc : c.right = some (extractLeft A)) (hA : A.size = 513)
    (raw : ℕ → ℕ → ℚ) (i : ℕ) (h1 : 1 ≤ i) (h2 : i ≤ 511) :
    constrainSample c 512 raw i 512 = A.val i 0 := by
  have his : i < A.size := by omega
  have his2 : i < 513 := by omega
  have hi0 : i ≠ 0 := by omega
  have hi512 : i ≠ 512 := by omega
  unfold constrainSample
  rw [hc]
  rcases hct : c.top with _ | t <;> rcases hcb : c.bottom with _ | bo <;>
    rcases hcl : c.left with _ | l <;>
    simp [hi0, hi512, extractLeft, List.getD_eq_getElem?_getD, List.getElem?_map,
      List.getElem?_range, his, his2, hA]

/-- Corner `(0,512)` of a right-constrained grid follows the right
constraint when no top constraint exists. -/
lemma constrainSample_right_val_top (c : Constraints) (A : HeightGrid)
    (hc : c.right = some (extractLeft A)) (hct : c.top = none)
    (hA : A.size = 513) (raw : ℕ → ℕ → ℚ) :
    constrainSample c 512 raw 0 512 = A.val 0 0 := by
  unfold constrainSample
  rw [hc, hct]
  rcases hcb : c.bottom with _ | bo <;> rcases hcl : c.left with _ | l <;>
    simp [extractLeft, List.getD_eq_getElem?_getD, List.getElem?_map,
      List.getElem?_range, show (0 : ℕ) < A.size from by omega,
      show (0 : ℕ) < 513 from by omega, hA]

/-- Corner `(512,512)` of a right-constrained grid follows the right
constraint when no bottom constraint exists. -/
lemma constrainSample_right_val_bottom (c : Constraints) (A : HeightGrid)
    (hc : c.right = some (extractLeft A)) (hcb : c.bottom = none)
    (hA : A.size = 513) (raw : ℕ → ℕ → ℚ) :
    constrainSample c 512 raw 512 512 = A.val 512 0 := by
  unfold constrainSample
  rw [hc, hcb]
  rcases hct : c.top with _ | t <;> rcases hcl : c.left with _ | l <;>
    simp [extractLeft, List.getD_eq_getElem?_getD, List.getElem?_map,
      List.getElem?_range, show (512 : ℕ) < A.size from by omega,
      show (512 : ℕ) < 513 from by omega, hA]

/-- Creating an absent chunk stores the generated height data at its key. -/
lemma createTerrainSquare_eq (rand : ℕ → ℕ → ℚ) (g : Grid) (x z : ℤ)
    (hB : g (x, z) = none) :
    createTerrainSquare rand g x z (x, z)
      = some ⟨x, z, generateTerrain rand TERRAIN_DETAIL TERRAIN_ROUGHNESS
          (chunkConstraints g x z)⟩ := by
  unfold createTerrainSquare
  rw [hB]
  simp

/-- C2 (amended): when a chunk is created at an absent coordinate, its
boundary facing any already-existing axis-adjacent neighbor `A` (of the
generated size `513`) equals `A`'s facing boundary element-for-element,
regardless of which other neighbors also exist — fully for a top or bottom
neighbor, and for a left or right neighbor at every interior sample, with
the two corner samples also matching whenever the perpendicular top/bottom
neighbor is absent.  A corner sample lies on two constrained boundaries,
so when both are present only one constraint can hold there (the modelled
overwrite applies left/right, then bottom, then top); the counterexample
shows the conflict is inherent: corner draws of two mutually non-adjacent
neighbors disagree, so no overwrite order could satisfy both.  In
particular, creating `(1,0)` after `(0,0)` passes `extractRight((0,0))` as
the left constraint and matches columns, not rows. -/
theorem C2_edge_continuity_amended (rand : ℕ → ℕ → ℚ) (g : Grid) (x z : ℤ)
    (A : Chunk) (hB : g (x, z) = none) (hA : A.heightData.size = 513) :
    (g (x, z - 1) = some A →
      ∀ c, createTerrainSquare rand g x z (x, z) = some c →
        ∀ j : ℕ, j ≤ 512 → c.heightData.val 0 j = A.heightData.val 512 j) ∧
    (g (x, z + 1) = some A →
      ∀ c, createTerrainSquare rand g x z (x, z) = some c →
        ∀ j : ℕ, j ≤ 512 → c.heightData.val 512 j = A.heightData.val 0 j) ∧
    (g (x - 1, z) = some A →
      ∀ c, createTerrainSquare rand g x z (x, z) = some c →
        (∀ i : ℕ, 1 ≤ i → i ≤ 511 →
          c.heightData.val i 0 = A.heightData.val i 512) ∧
        (g (x, z - 1) = none → c.heightData.val 0 0 = A.heightData.val 0 512) ∧
        (g (x, z + 1) = none →
          c.heightData.val 512 0 = A.heightData.val 512 512)) ∧
    (g (x + 1, z) = some A →
      ∀ c, createTerrainSquare rand g x z (x, z) = some c →
        (∀ i : ℕ, 1 ≤ i → i ≤ 511 →
          c.heightData.val i 512 = A.heightData.val i 0) ∧
        (g (x, z - 1) = none → c.heightData.val 0 512 = A.heightData.val 0 0) ∧
        (g (x, z + 1) = none →
          c.heightData.val 512 512 = A.heightData.val 512 0)) := by
  refine ⟨?_, ?_, ?_, ?_⟩
  · intro h1 c hc j hj
    rw [createTerrainSquare_eq rand g x z hB] at hc
    injection hc with hc
    subst hc
    have hct : (chunkConstraints g x z).top = some (extractBottom A.heightData) := by
      unfold chunkConstraints
      rw [h1]
      rfl
    exact constrainSample_top_val _ _ hct hA _ _ j hj
  · intro h1 c hc j hj
    rw [createTerrainSquare_eq rand g x z hB] at hc
    injection hc with hc
    subst hc
    have hcb : (chunkConstraints g x z).bottom = some (extractTop A.heightData) := by
      unfold chunkConstraints
      rw [h1]
      rfl
    exact constrainSample_bottom_val _ _ hcb hA _ j hj
  · intro h1 c hc
    rw [createTerrainSquare_eq rand g x z hB] at hc
    injection hc with hc
    subst hc
    have hcl : (chunkConstraints g x z).left = some (extractRight A.heightData) := by
      unfold chunkConstraints
      rw [h1]
      rfl
    refine ⟨?_, ?_, ?_⟩
    · intro i hi1 hi2
      exact constrainSample_left_val _ _ hcl hA _ i hi1 hi2
    · intro htop
      have hct : (chunkConstraints g x z).top = none := by
        unfold chunkConstraints
        rw [htop]
        rfl
      exact constrainSample_left_val_top _ _ hcl hct hA _
    · intro hbot
      have hcb : (chunkConstraints g x z).bottom = none := by
        unfold chunkConstraints
        rw [hbot]
        rfl
      exact constrainSample_left_val_bottom _ _ hcl hcb hA _
  · intro h1 c hc
    rw [createTerrainSquare_eq rand g x z hB] at hc
    injection hc with hc
    subst hc
    have hcr : (chunkConstraints g x z).right = some (extractLeft A.heightData) := by
      unfold chunkConstraints
      rw [h1]
      rfl
    refine ⟨?_, ?_, ?_⟩
    · intro i hi1 hi2
      exact constrainSample_right_val _ _ hcr hA _ i hi1 hi2
    · intro htop
      have hct : (chunkConstraints g x z).top = none := by
        unfold chunkConstraints
        rw [htop]
        rfl
      exact constrainSample_right_val_top _ _ hcr hct hA _
    · intro hbot
      have hcb : (chunkConstraints g x z).bottom = none := by
        unfold chunkConstraints
        rw [hbot]
        rfl
      exact constrainSample_right_val_bottom _ _ hcr hcb hA _

/-- Random field used by the C2 counterexample: sample `(i, j)` draws `i`. -/
def randCE : ℕ → ℕ → ℚ := fun i _ => (i : ℚ)

/-- The grid after creating chunk `(0,0)` in an empty grid. -/
def gA : Grid := createTerrainSquare randCE emptyGrid 0 0

/-- The grid after then creating chunk `(1,0)`. -/
def gB : Grid := createTerrainSquare randCE gA 1 0

/-- The height data generated for chunk `(0,0)`. -/
def hdA : HeightGrid :=
  generateTerrain randCE TERRAIN_DETAIL TERRAIN_ROUGHNESS
    (chunkConstraints emptyGrid 0 0)

/-- The height data generated for chunk `(1,0)`. -/
def hdB : HeightGrid :=
  generateTerrain randCE TERRAIN_DETAIL TERRAIN_ROUGHNESS
    (chunkConstraints gA 1 0)

/-- The grid after creating chunk `(0,-1)` in an empty grid. -/
def gT : Grid := createTerrainSquare randCE emptyGrid 0 (-1)

/-- The grid after then creating chunk `(-1,0)` — not axis-adjacent to
`(0,-1)`, so the two are generated independently. -/
def gTL : Grid := createTerrainSquare randCE gT (-1) 0

/-- The grid after then creating chunk `(0,0)`, whose top neighbor `(0,-1)`
and left neighbor `(-1,0)` both already exist. -/
def gTLB : Grid := createTerrainSquare randCE gTL 0 0

/-- The height data generated for chunk `(0,-1)`. -/
def hdT : HeightGrid :=
  generateTerrain randCE TERRAIN_DETAIL TERRAIN_ROUGHNESS
    (chunkConstraints emptyGrid 0 (-1))

/-- The height data generated for chunk `(-1,0)`. -/
def hdL : HeightGrid :=
  generateTerrain randCE TERRAIN_DETAIL TERRAIN_ROUGHNESS
    (chunkConstraints gT (-1) 0)

/-- The height data generated for chunk `(0,0)` with both neighbors. -/
def hdB2 : HeightGrid :=
  generateTerrain randCE TERRAIN_DETAIL TERRAIN_ROUGHNESS
    (chunkConstraints gTL 0 0)

/-- Counterexample for C2, in two parts.  First, the concrete scenario:
generating chunk `(1,0)` after chunk `(0,0)` does NOT yield
`(1,0).heightData[0] == (0,0).heightData[512]` element-wise — `(0,0)` is
the LEFT neighbor of `(1,0)` (its top neighbor would be `(1,-1)`), so the
code passes `extractRight((0,0))` as the left constraint and matches
columns instead: at element `0`, `(1,0).heightData[0][0]` is `(0,0)`'s
top-right corner (draw `0`) while `(0,0).heightData[512][0]` is its
bottom-left corner (draw `512`).  Second, the multi-neighbor corner
conflict: chunks `(0,-1)` and `(-1,0)` are not axis-adjacent, so they are
generated independently and their draws at the corner world point shared
with `(0,0)` disagree (`512` vs `0`); when `(0,0)` is then created with
both as neighbors, its corner sample `[0][0]` can match only one of them,
so the boundary facing the left neighbor `(-1,0)` — which existed before
`(0,0)` was created — fails element-for-element at element `0`. -/
theorem C2_counterexample :
    (¬ ∀ cA cB : Chunk,
        gA ((0 : ℤ), (0 : ℤ)) = some cA → gB ((1 : ℤ), (0 : ℤ)) = some cB →
        ∀ j : ℕ, j ≤ 512 → cB.heightData.val 0 j = cA.heightData.val 512 j) ∧
    (¬ ∀ cL cB : Chunk,
        gTL ((-1 : ℤ), (0 : ℤ)) = some cL → gTLB ((0 : ℤ), (0 : ℤ)) = some cB →
        ∀ i : ℕ, i ≤ 512 → cB.heightData.val i 0 = cL.heightData.val i 512) := by
  constructor
  · intro hcl
    have h0 := hcl ⟨0, 0, hdA⟩ ⟨1, 0, hdB⟩ rfl rfl 0 (by norm_num)
    dsimp only at h0
    have e1 : hdB.val 0 0 = ((0 : ℕ) : ℚ) := rfl
    have e2 : hdA.val 512 0 = ((512 : ℕ) : ℚ) := rfl
    rw [e1, e2] at h0
    norm_num at h0
  · intro hcl
    have h0 := hcl ⟨-1, 0, hdL⟩ ⟨0, 0, hdB2⟩ rfl rfl 0 (by norm_num)
    dsimp only at h0
    have e1 : hdB2.val 0 0 = ((512 : ℕ) : ℚ) := rfl
    have e2 : hdL.val 0 512 = ((0 : ℕ) : ℚ) := rfl
    rw [e1, e2] at h0
    norm_num at h0

/-- The pre-existing neighbor chunk used in the C2 witness. -/
def chunkW : Chunk := ⟨0, 0, ⟨513, fun i j => (i : ℚ) * 1000 + (j : ℚ)⟩⟩

/-- A grid holding only `chunkW` at `(0,0)`. -/
def gW : Grid := fun p => if p = ((0 : ℤ), (0 : ℤ)) then some chunkW else none

/-- The height data generated for chunk `(1,0)` next to `chunkW`. -/
def hdW : HeightGrid :=
  generateTerrain randZero TERRAIN_DETAIL TERRAIN_ROUGHNESS
    (chunkConstraints gW 1 0)

/-- Witness for the amended C2 at the corrected concrete scenario: chunk
`(1,0)` created after chunk `(0,0)` matches its column `0` to `(0,0)`'s
column `512` at every interior sample, and at both corners since `(1,0)`
has no top or bottom neighbor here. -/
theorem C2_edge_continuity_witness :
    gW ((1 : ℤ), (0 : ℤ)) = none ∧
    (∀ i : ℕ, 1 ≤ i → i ≤ 511 → hdW.val i 0 = chunkW.heightData.val i 512) ∧
    hdW.val 0 0 = chunkW.heightData.val 0 512 ∧
    hdW.val 512 0 = chunkW.heightData.val 512 512 :=
  have h := (C2_edge_continuity_amended randZero gW 1 0 chunkW rfl rfl).2.2.1 rfl
    ⟨1, 0, hdW⟩ (createTerrainSquare_eq randZero gW 1 0 rfl)
  ⟨rfl, h.1, h.2.1 rfl, h.2.2 rfl⟩

/-- Creating a chunk makes its own coordinate resident. -/
lemma createTerrainSquare_isSome_self (rand : ℕ → ℕ → ℚ) (g : Grid) (x z : ℤ) :
    (createTerrainSquare rand g x z (x, z)).isSome = true := by
  unfold createTerrainSquare
  by_cases h : (g (x, z)).isSome = true
  · rw [if_pos h]
    exact h
  · rw [if_neg h]
    simp

/-- Creating a chunk never evicts an existing one. -/
lemma createTerrainSquare_mono (rand : ℕ → ℕ → ℚ) (g : Grid) (x z : ℤ)
    (p : ℤ × ℤ) (h : (g p).isSome = true) :
    (createTerrainSquare rand g x z p).isSome = true := by
  unfold createTerrainSquare
  by_cases hc : (g (x, z)).isSome = true
  · rw [if_pos hc]
    exact h
  · rw [if_neg hc]
    by_cases hp : p = (x, z)
    · simp [hp]
    · simp [hp, h]

/-- Creating a chunk preserves the key/stored-coordinate agreement. -/
lemma createTerrainSquare_wf (rand : ℕ → ℕ → ℚ) (g : Grid) (x z : ℤ)
    (hWF : ∀ p c, g p = some c → c.gridX = p.1 ∧ c.gridZ = p.2) :
    ∀ p c, createTerrainSquare rand g x z p = some c →
      c.gridX = p.1 ∧ c.gridZ = p.2 := by
  intro p c h
  unfold createTerrainSquare at h
  by_cases hc : (g (x, z)).isSome = true
  · rw [if_pos hc] at h
    exact hWF p c h
  · rw [if_neg hc] at h
    by_cases hp : p = (x, z)
    · rw [if_pos hp] at h
      injection h with h
      subst h
      subst hp
      exact ⟨rfl, rfl⟩
    · rw [if_neg hp] at h
      exact hWF p c h

/-- Residency is preserved through the generation fold. -/
lemma foldCreate_mono (randFam : ℤ × ℤ → ℕ → ℕ → ℚ) :
    ∀ (coords : List (ℤ × ℤ)) (g : Grid) (p : ℤ × ℤ), (g p).isSome = true →
    ((coords.foldl (fun gg q => createTerrainSquare (randFam q) gg q.1 q.2) g) p).isSome
      = true := by
  intro coords
  induction coords with
  | nil => intro g p h; exact h
  | cons a l ih =>
    intro g p h
    exact ih _ p (createTerrainSquare_mono (randFam a) g a.1 a.2 p h)

/-- Every coordinate visited by the generation fold ends up resident. -/
lemma foldCreate_mem (randFam : ℤ × ℤ → ℕ → ℕ → ℚ) :
    ∀ (coords : List (ℤ × ℤ)) (g : Grid) (p : ℤ × ℤ), p ∈ coords →
    ((coords.foldl (fun gg q => createTerrainSquare (randFam q) gg q.1 q.2) g) p).isSome
      = true := by
  intro coords
  induction coords with
  | nil => intro g p h; cases h
  | cons a l ih =>
    intro g p h
    rcases List.mem_cons.mp h with rfl | h
    · have h2 := createTerrainSquare_isSome_self (randFam p) g p.1 p.2
      rw [Prod.mk.eta] at h2
      exact foldCreate_mono randFam l (createTerrainSquare (randFam p) g p.1 p.2) p h2
    · exact ih _ p h

/-- The generation fold preserves the key/stored-coordinate agreement. -/
lemma foldCreate_wf (randFam : ℤ × ℤ → ℕ → ℕ → ℚ) :
    ∀ (coords : List (ℤ × ℤ)) (g : Grid),
    (∀ p c, g p = some c → c.gridX = p.1 ∧ c.gridZ = p.2) →
    ∀ p c, (coords.foldl (fun gg q => createTerrainSquare (randFam q) gg q.1 q.2) g) p
        = some c → c.gridX = p.1 ∧ c.gridZ = p.2 := by
  intro coords
  induction coords with
  | nil => intro g hWF; exact hWF
  | cons a l ih =>
    intro g hWF
    exact ih _ (createTerrainSquare_wf (randFam a) g a.1 a.2 hWF)

/-- Any offset pair within the `[-2, 2]` square is visited by the scan. -/
lemma mem_genOffsets (d : ℤ × ℤ) (h1 : -2 ≤ d.1) (h2 : d.1 ≤ 2)
    (h3 : -2 ≤ d.2) (h4 : d.2 ≤ 2) : d ∈ genOffsets := by
  obtain ⟨a, b⟩ := d
  simp only at h1 h2 h3 h4
  have ha : a ∈ ([-2, -1, 0, 1, 2] : List ℤ) := by
    interval_cases a <;> simp
  have hb : b ∈ ([-2, -1, 0, 1, 2] : List ℤ) := by
    interval_cases b <;> simp
  simp only [genOffsets, List.mem_flatMap, List.mem_map]
  exact ⟨a, ha, b, hb, rfl⟩

/-- Eviction keeps a chunk whose stored coordinates are within distance 4. -/
lemma removeDistant_keep (g : Grid) (cx cz : ℤ) (p : ℤ × ℤ) (c : Chunk)
    (hg : g p = some c) (hx : c.gridX = p.1) (hz : c.gridZ = p.2)
    (hd : max |p.1 - cx| |p.2 - cz| ≤ 4) :
    removeDistantTerrain g cx cz p = some c := by
  unfold removeDistantTerrain
  rw [hg]
  have hlt : ¬ 4 < max |c.gridX - cx| |c.gridZ - cz| := by
    rw [not_lt, hx, hz]
    exact hd
  simp [hlt]

/-- Eviction removes every chunk beyond distance 4 (given the stored
coordinates agree with the key). -/
lemma removeDistant_none (g : Grid) (cx cz : ℤ) (p : ℤ × ℤ)
    (hWF : ∀ p c, g p = some c → c.gridX = p.1 ∧ c.gridZ = p.2)
    (hd : 4 < max |p.1 - cx| |p.2 - cz|) :
    removeDistantTerrain g cx cz p = none := by
  unfold removeDistantTerrain
  rcases hg : g p with _ | c
  · rfl
  · have h := hWF p c hg
    dsimp only
    rw [if_pos (by rw [h.1, h.2]; exact hd)]

/-- C3: after `updateTerrain` observes a change of the active grid
coordinate to `B`, every coordinate within Chebyshev distance 2 of `B` is
resident, and every coordinate at Chebyshev distance greater than 4 from
`B` is absent.  The stored-coordinate agreement hypothesis holds for every
grid built by `createTerrainSquare`. -/
theorem C3_streaming_lifecycle (randFam : ℤ × ℤ → ℕ → ℕ → ℚ)
    (st : TerrainState) (px pz : ℚ)
    (hWF : ∀ p c, st.grid p = some c → c.gridX = p.1 ∧ c.gridZ = p.2)
    (hchange : ¬(chunkCoord px = st.currentGridX ∧ chunkCoord pz = st.currentGridZ)) :
    (∀ p : ℤ × ℤ, cheb p (chunkCoord px, chunkCoord pz) ≤ 2 →
      ((updateTerrain randFam st px pz).grid p).isSome = true) ∧
    (∀ p : ℤ × ℤ, 4 < cheb p (chunkCoord px, chunkCoord pz) →
      (updateTerrain randFam st px pz).grid p = none) := by
  have hgrid : (updateTerrain randFam st px pz).grid
      = removeDistantTerrain
          ((genOffsets.map (fun d => (chunkCoord px + d.1, chunkCoord pz + d.2))).foldl
            (fun gg q => createTerrainSquare (randFam q) gg q.1 q.2) st.grid)
          (chunkCoord px) (chunkCoord pz) := by
    unfold updateTerrain
    dsimp only
    rw [if_neg hchange]
  rw [hgrid]
  have hWF1 := foldCreate_wf randFam
    (genOffsets.map (fun d => (chunkCoord px + d.1, chunkCoord pz + d.2))) st.grid hWF
  constructor
  · intro p hp
    obtain ⟨a, b⟩ := p
    unfold cheb at hp
    dsimp only at hp
    rw [max_le_iff, abs_le, abs_le] at hp
    obtain ⟨⟨h1, h2⟩, h3, h4⟩ := hp
    have hmem : (a, b) ∈ genOffsets.map
        (fun d => (chunkCoord px + d.1, chunkCoord pz + d.2)) := by
      apply List.mem_map.mpr
      refine ⟨(a - chunkCoord px, b - chunkCoord pz),
        mem_genOffsets _ ?_ ?_ ?_ ?_, ?_⟩
      · show -2 ≤ a - chunkCoord px
        omega
      · show a - chunkCoord px ≤ 2
        omega
      · show -2 ≤ b - chunkCoord pz
        omega
      · show b - chunkCoord pz ≤ 2
        omega
      · simp only [Prod.mk.injEq]
        constructor <;> omega
    have hsome := foldCreate_mem randFam _ st.grid (a, b) hmem
    obtain ⟨c, hc⟩ := Option.isSome_iff_exists.mp hsome
    have hpc := hWF1 (a, b) c hc
    have hd : max |(a, b).1 - chunkCoord px| |(a, b).2 - chunkCoord pz| ≤ 4 := by
      rw [max_le_iff, abs_le, abs_le]
      dsimp only
      refine ⟨⟨?_, ?_⟩, ?_, ?_⟩ <;> omega
    rw [removeDistant_keep _ (chunkCoord px) (chunkCoord pz) (a, b) c hc hpc.1 hpc.2 hd]
    rfl
  · intro p hp
    unfold cheb at hp
    dsimp only at hp
    exact removeDistant_none _ (chunkCoord px) (chunkCoord pz) p hWF1 hp

/-- The initial streaming state: empty grid, active coordinate `(0, 0)`. -/
def st0 : TerrainState := ⟨emptyGrid, 0, 0⟩

/-- A random family that is identically zero. -/
def randFam0 : ℤ × ℤ → ℕ → ℕ → ℚ := fun _ _ _ => 0

/-- Witness for C3: moving the plane to `x = 2000` changes the active
coordinate to `(1, 0)`; coordinate `(3, 2)` (distance 2) is then resident
and `(6, 0)` (distance 5) is absent. -/
theorem C3_streaming_witness :
    ¬(chunkCoord (2000 : ℚ) = st0.currentGridX ∧ chunkCoord (0 : ℚ) = st0.currentGridZ) ∧
    ((updateTerrain randFam0 st0 2000 0).grid (3, 2)).isSome = true ∧
    (updateTerrain randFam0 st0 2000 0).grid (6, 0) = none := by
  have e1 : chunkCoord (2000 : ℚ) = 1 := by norm_num [chunkCoord, SQUARE_SIZE]
  have e2 : chunkCoord (0 : ℚ) = 0 := by norm_num [chunkCoord, SQUARE_SIZE]
  have hWF : ∀ p c, st0.grid p = some c → c.gridX = p.1 ∧ c.gridZ = p.2 :=
    fun p c h => Option.noConfusion h
  have hch : ¬(chunkCoord (2000 : ℚ) = st0.currentGridX ∧
      chunkCoord (0 : ℚ) = st0.currentGridZ) := by
    intro hc
    rw [e1] at hc
    exact absurd hc.1 (by decide)
  refine ⟨hch, ?_, ?_⟩
  · exact (C3_streaming_lifecycle randFam0 st0 2000 0 hWF hch).1 (3, 2)
      (by rw [cheb, e1, e2]; decide)
  · exact (C3_streaming_lifecycle randFam0 st0 2000 0 hWF hch).2 (6, 0)
      (by rw [cheb, e1, e2]; decide)

/-- The velocity magnitude is nonnegative. -/
lemma speed3_nonneg (v : ℝ × ℝ × ℝ) : 0 ≤ speed3 v := Real.sqrt_nonneg _

/-- Scaling every component by `c ≥ 0` scales the magnitude by `c`. -/
lemma speed3_smul (c : ℝ) (hc : 0 ≤ c) (v : ℝ × ℝ × ℝ) :
    speed3 (v.1 * c, v.2.1 * c, v.2.2 * c) = speed3 v * c := by
  unfold speed3
  rw [show v.1 * c * (v.1 * c) + v.2.1 * c * (v.2.1 * c) + v.2.2 * c * (v.2.2 * c)
      = (v.1 * v.1 + v.2.1 * v.2.1 + v.2.2 * v.2.2) * (c * c) from by ring]
  rw [Real.sqrt_mul
    (add_nonneg (add_nonneg (mul_self_nonneg _) (mul_self_nonneg _)) (mul_self_nonneg _)),
    Real.sqrt_mul_self hc]

/-- The capped velocity never exceeds `MAX_SPEED` in magnitude. -/
lemma capVelocity_le (v : ℝ × ℝ × ℝ) : speed3 (capVelocity v) ≤ MAX_SPEED := by
  unfold capVelocity
  by_cases h : MAX_SPEED < speed3 v
  · rw [if_pos h]
    dsimp only
    rw [speed3_smul (MAX_SPEED / speed3 v)
      (div_nonneg (by norm_num [MAX_SPEED]) (speed3_nonneg v)) v]
    rw [mul_comm, div_mul_cancel₀]
    · exact ne_of_gt (lt_trans (by norm_num [MAX_SPEED]) h)
  · rw [if_neg h]
    exact le_of_not_lt h

/-- When the pre-cap magnitude exceeds `MAX_SPEED`, the cap rescales every
component by `MAX_SPEED / currentSpeed` and the magnitude becomes exactly
`MAX_SPEED`. -/
lemma capVelocity_eq_of_gt (v : ℝ × ℝ × ℝ) (h : MAX_SPEED < speed3 v) :
    capVelocity v = (v.1 * (MAX_SPEED / speed3 v), v.2.1 * (MAX_SPEED / speed3 v),
      v.2.2 * (MAX_SPEED / speed3 v)) ∧ speed3 (capVelocity v) = MAX_SPEED := by
  have hne : speed3 v ≠ 0 := ne_of_gt (lt_trans (by norm_num [MAX_SPEED]) h)
  constructor
  · unfold capVelocity
    rw [if_pos h]
  · unfold capVelocity
    rw [if_pos h]
    dsimp only
    rw [speed3_smul (MAX_SPEED / speed3 v)
      (div_nonneg (by norm_num [MAX_SPEED]) (speed3_nonneg v)) v]
    rw [mul_comm, div_mul_cancel₀ _ hne]

/-- C1: after every physics tick, the velocity magnitude never exceeds
`MAX_SPEED = 55`; and whenever the integrated (pre-cap) velocity exceeds
the cap, the final velocity is that velocity rescaled uniformly by
`MAX_SPEED / currentSpeed` — preserving its direction — with magnitude
exactly `MAX_SPEED`.  Since this holds for the output of every call, it
holds after each call of any sequence of calls. -/
theorem C1_speed_cap (k : Keys) (dt : ℝ) (s : PlaneState ℝ) (hdt : 0 < dt) :
    speed3 ((updatePlaneControls k dt s).velocityX,
      (updatePlaneControls k dt s).velocityY,
      (updatePlaneControls k dt s).velocityZ) ≤ MAX_SPEED ∧
    (MAX_SPEED < speed3 (preCapVelocity k dt s) →
      ((updatePlaneControls k dt s).velocityX
          = (preCapVelocity k dt s).1
            * (MAX_SPEED / speed3 (preCapVelocity k dt s)) ∧
        (updatePlaneControls k dt s).velocityY
          = (preCapVelocity k dt s).2.1
            * (MAX_SPEED / speed3 (preCapVelocity k dt s)) ∧
        (updatePlaneControls k dt s).velocityZ
          = (preCapVelocity k dt s).2.2
            * (MAX_SPEED / speed3 (preCapVelocity k dt s))) ∧
      speed3 ((updatePlaneControls k dt s).velocityX,
        (updatePlaneControls k dt s).velocityY,
        (updatePlaneControls k dt s).velocityZ) = MAX_SPEED) := by
  constructor
  · exact capVelocity_le (preCapVelocity k dt s)
  · intro h
    have hcap := capVelocity_eq_of_gt (preCapVelocity k dt s) h
    refine ⟨⟨?_, ?_, ?_⟩, ?_⟩
    · exact congrArg Prod.fst hcap.1
    · exact congrArg (fun t => t.2.1) hcap.1
    · exact congrArg (fun t => t.2.2) hcap.1
    · exact hcap.2

/-- The all-off control state. -/
def keys0 : Keys := ⟨false, false, false, false, false, false, false, false, false⟩

/-- Witness for C1 at the reset state with `dt = 1`. -/
theorem C1_speed_cap_witness :
    (0 : ℝ) < 1 ∧
    speed3 ((updatePlaneControls keys0 1 (resetState ℝ)).velocityX,
      (updatePlaneControls keys0 1 (resetState ℝ)).velocityY,
      (updatePlaneControls keys0 1 (resetState ℝ)).velocityZ) ≤ MAX_SPEED :=
  ⟨by norm_num, (C1_speed_cap keys0 1 (resetState ℝ) (by norm_num)).1⟩

/-- The sequential thrust update keeps `[0, 1]` invariant for `dt > 0`. -/
lemma thrustAfter_mem (k : Keys) (dt t : ℝ) (h0 : 0 ≤ t) (h1 : t ≤ 1)
    (hdt : 0 < dt) : 0 ≤ thrustAfter k dt t ∧ thrustAfter k dt t ≤ 1 := by
  unfold thrustAfter
  dsimp only
  set t1 := if k.shift then min 1 (t + dt) else t with ht1
  have hm1 : 0 ≤ t1 ∧ t1 ≤ 1 := by
    rw [ht1]
    split
    · exact ⟨le_min (by norm_num) (by linarith), min_le_left _ _⟩
    · exact ⟨h0, h1⟩
  set t2 := if k.ctrl then max 0 (t1 - dt) else t1 with ht2
  have hm2 : 0 ≤ t2 ∧ t2 ≤ 1 := by
    rw [ht2]
    split
    · exact ⟨le_max_left _ _, max_le (by norm_num) (by linarith [hm1.2])⟩
    · exact hm1
  split
  · exact ⟨le_max_left _ _, max_le (by norm_num) (by linarith [hm2.2])⟩
  · exact hm2

/-- C8: for every control combination and `dt > 0`, thrust stays in `[0, 1]`
given it was in `[0, 1]`; with only throttle-up held it moves toward `1` at
rate `1/s` (`min 1 (t + dt)`), with only throttle-down toward `0` at rate
`1/s` (`max 0 (t - dt)`), and with only the brake it drops at the higher
rate `3/s` (`max 0 (t - 3 dt)`). -/
theorem C8_thrust_range (k : Keys) (dt : ℝ) (s : PlaneState ℝ)
    (h0 : 0 ≤ s.thrust) (h1 : s.thrust ≤ 1) (hdt : 0 < dt) :
    (0 ≤ (updatePlaneControls k dt s).thrust ∧
      (updatePlaneControls k dt s).thrust ≤ 1) ∧
    (k.shift = true → k.ctrl = false → k.space = false →
      (updatePlaneControls k dt s).thrust = min 1 (s.thrust + dt)) ∧
    (k.shift = false → k.ctrl = true → k.space = false →
      (updatePlaneControls k dt s).thrust = max 0 (s.thrust - dt)) ∧
    (k.shift = false → k.ctrl = false → k.space = true →
      (updatePlaneControls k dt s).thrust = max 0 (s.thrust - dt * 3)) := by
  have hT : (updatePlaneControls k dt s).thrust = thrustAfter k dt s.thrust := rfl
  rw [hT]
  refine ⟨thrustAfter_mem k dt s.thrust h0 h1 hdt, ?_, ?_, ?_⟩
  · intro hs hc hsp
    unfold thrustAfter
    rw [hs, hc, hsp]
    simp
  · intro hs hc hsp
    unfold thrustAfter
    rw [hs, hc, hsp]
    simp
  · intro hs hc hsp
    unfold thrustAfter
    rw [hs, hc, hsp]
    simp

/-- Witness for C8 at the reset state (thrust `0.5`) with `dt = 1`. -/
theorem C8_thrust_witness :
    ((0 : ℝ) ≤ (resetState ℝ).thrust ∧ (resetState ℝ).thrust ≤ 1 ∧ (0 : ℝ) < 1) ∧
    (0 ≤ (updatePlaneControls keys0 1 (resetState ℝ)).thrust ∧
      (updatePlaneControls keys0 1 (resetState ℝ)).thrust ≤ 1) :=
  ⟨⟨by norm_num [resetState], by norm_num [resetState], by norm_num⟩,
    (C8_thrust_range keys0 1 (resetState ℝ) (by norm_num [resetState])
      (by norm_num [resetState]) (by norm_num)).1⟩

/-- C7 (amended): after the physics integration step `planeAltitude` always
lies in `[0, MAX_ALTITUDE]`; the collision write-back never lowers the
altitude and keeps it within `[0, 200000]` (the terrain clamp), but it can
exceed `MAX_ALTITUDE` whenever the terrain height at the vehicle's center
does (see the counterexample). -/
theorem C7_altitude_amended :
    (∀ (k : Keys) (dt : ℝ) (s : PlaneState ℝ),
      0 ≤ (updatePlaneControls k dt s).planeAltitude ∧
      (updatePlaneControls k dt s).planeAltitude ≤ MAX_ALTITUDE) ∧
    (∀ (grid : Grid) (box : Box) (s : PlaneState ℚ),
      0 ≤ s.planeAltitude → s.planeAltitude ≤ 4200 →
      s.planeAltitude ≤ (resolveCollision grid box s).planeAltitude ∧
      0 ≤ (resolveCollision grid box s).planeAltitude ∧
      (resolveCollision grid box s).planeAltitude ≤ 200000) := by
  constructor
  · intro k dt s
    have hA : (updatePlaneControls k dt s).planeAltitude
        = min MAX_ALTITUDE
          (max 0 (s.planeAltitude + (capVelocity (preCapVelocity k dt s)).2.1 * dt)) := rfl
    rw [hA]
    exact ⟨le_min (by norm_num [MAX_ALTITUDE]) (le_max_left _ _), min_le_left _ _⟩
  · intro grid box s h0 h1
    unfold resolveCollision
    by_cases hc : checkCollisions grid box = true
    · rw [if_pos hc]
      dsimp only
      refine ⟨le_max_left _ _, le_trans h0 (le_max_left _ _),
        max_le (le_trans h1 (by norm_num))
          (getTerrainHeightAt_le grid s.planePosX s.planePosZ)⟩
    · rw [if_neg hc]
      exact ⟨le_refl _, h0, le_trans h1 (by norm_num)⟩

/-- Witness for the amended C7 at the reset states. -/
theorem C7_altitude_witness :
    ((0 : ℚ) ≤ (resetState ℚ).planeAltitude ∧ (resetState ℚ).planeAltitude ≤ 4200) ∧
    (0 ≤ (updatePlaneControls keys0 1 (resetState ℝ)).planeAltitude ∧
      (updatePlaneControls keys0 1 (resetState ℝ)).planeAltitude ≤ MAX_ALTITUDE) ∧
    ((resetState ℚ).planeAltitude
        ≤ (resolveCollision emptyGrid boxW (resetState ℚ)).planeAltitude ∧
      0 ≤ (resolveCollision emptyGrid boxW (resetState ℚ)).planeAltitude ∧
      (resolveCollision emptyGrid boxW (resetState ℚ)).planeAltitude ≤ 200000) :=
  ⟨⟨by norm_num [resetState], by norm_num [resetState]⟩,
    C7_altitude_amended.1 keys0 1 (resetState ℝ),
    C7_altitude_amended.2 emptyGrid boxW (resetState ℚ)
      (by norm_num [resetState]) (by norm_num [resetState])⟩
